import Mathlib

/-!
Shallow embedding of `src/tools/bulk_import.py` (the reconciliation core of
the media_catalog bulk importer).

Modelling conventions:
* Python dicts keyed by strings become association lists
  (`List (String × α)`) with Python-dict lookup/assignment semantics
  (`lookupIdx` / `idxInsert`).
* The OpenLibrary response value `ol_book` is modelled by `OLBook` with the
  fields the script reads (`authors`, `publishers`) plus `title` (present in
  real responses and referred to by the merge-policy comments).
* `pickle.dump` / `pickle.load` become an executable, lossless serialization
  of `OLBook` to `List Nat` (`pickleDump` / `pickleLoad`); the cache
  directory becomes an association list from file path to serialized bytes.
* Python exceptions become the `PyExn` type; a function that can raise
  returns its normal result together with an `Option PyExn` (or an
  `Except PyExn _` when it has no other state), and an exception propagates
  by short-circuiting exactly where Python would unwind.
* `requests.get` becomes an oracle `net : String → Except PyExn Response`;
  a transport failure (connection error, timeout) is `PyExn.transportError`
  raised by the oracle itself, while `Response.raise_for_status` raises
  `PyExn.httpError` for 4xx/5xx statuses.
* The SQLAlchemy session becomes explicit state: the rows staged by
  `session.add`/`session.flush` during the run, a counter for SERIAL id
  generation, and a trace of events (entity creations, skip log lines,
  final commit/rollback).  `session.flush` failures are injected through an
  oracle `failOn : String → Bool` (flushing an author whose url satisfies
  `failOn` raises `PyExn.storageError`).
-/

/-- Python-dict lookup on an association list: `d[k]` / `k in d`. -/
def lookupIdx {α : Type} : List (String × α) → String → Option α
  | [], _ => none
  | (k, v) :: rest, q => if k = q then some v else lookupIdx rest q

/-- Python-dict assignment on an association list: `d[k] = v` replaces the
binding for `k` if present, otherwise appends it. -/
def idxInsert {α : Type} : List (String × α) → String → α → List (String × α)
  | [], q, v => [(q, v)]
  | (k, w) :: rest, q, v =>
      if k = q then (q, v) :: rest else (k, w) :: idxInsert rest q v

/-- An author or publisher entry of an OpenLibrary book record:
`{'name': ..., 'url': ...}`. -/
structure OLEntity where
  name : String
  url : String
deriving DecidableEq

/-- The OpenLibrary book record (`ol_book`), restricted to the fields the
script touches: `ol_book['authors']`, `ol_book['publishers']` (both lists of
`{name, url}` dicts) and the `title` used by the merge-policy comments. -/
structure OLBook where
  title : Option String
  authors : List OLEntity
  publishers : List OLEntity
deriving DecidableEq

/-- Python exceptions that can unwind through the script. -/
inductive PyExn where
  /-- `requests.exceptions.HTTPError`, raised by `resp.raise_for_status()`
  for a 4xx/5xx status; carries the status. -/
  | httpError (status : Nat)
  /-- A transport failure of `requests.get` (connection error, timeout):
  `requests.exceptions.ConnectionError` / `Timeout`, which are NOT
  subclasses of `HTTPError`. -/
  | transportError
  /-- `IndexError` from `list(resp.json().values())[0]` on an empty object. -/
  | indexError
  /-- `pickle.UnpicklingError` from `pickle.load` on a corrupt cache file. -/
  | unpicklingError
  /-- A storage failure raised by `session.add`/`session.flush`
  (`sqlalchemy.exc.SQLAlchemyError`). -/
  | storageError
  /-- The `NameError` raised in `index_db_data` by the reference to the
  undefined name `publisher`. -/
  | nameError
deriving DecidableEq

/-- An HTTP response as seen by `search_isbn`: a status code and the parsed
JSON body, a JSON object modelled as an association list (OpenLibrary returns
`{'ISBN:#######': {book info}}`). -/
structure Response where
  status : Nat
  body : List (String × OLBook)
deriving DecidableEq

/-! ### pickle: lossless serialization of `OLBook` to bytes (`List Nat`) -/

/-- Serialize a string: length-prefixed list of character codes. -/
def encStr (s : String) : List Nat :=
  s.data.length :: s.data.map Char.toNat

/-- Deserialize a string from the front of a byte list, returning the
remainder. -/
def decStr : List Nat → Option (String × List Nat)
  | [] => none
  | n :: rest =>
      if n ≤ rest.length then
        some (String.mk ((rest.take n).map Char.ofNat), rest.drop n)
      else none

/-- Serialize an optional string (a tag byte, then the string if present). -/
def encOptStr : Option String → List Nat
  | none => [0]
  | some s => 1 :: encStr s

/-- Deserialize an optional string from the front of a byte list. -/
def decOptStr : List Nat → Option (Option String × List Nat)
  | 0 :: rest => some (none, rest)
  | 1 :: rest =>
      match decStr rest with
      | some (s, r) => some (some s, r)
      | none => none
  | _ => none

/-- Serialize one `{name, url}` entity. -/
def encEntity (e : OLEntity) : List Nat :=
  encStr e.name ++ encStr e.url

/-- Deserialize one `{name, url}` entity from the front of a byte list. -/
def decEntity (l : List Nat) : Option (OLEntity × List Nat) :=
  match decStr l with
  | none => none
  | some (n, l1) =>
      match decStr l1 with
      | none => none
      | some (u, l2) => some (⟨n, u⟩, l2)

/-- Serialize a list of entities: count-prefixed concatenation. -/
def encEntityList (l : List OLEntity) : List Nat :=
  l.length :: l.foldr (fun e acc => encEntity e ++ acc) []

/-- Deserialize `n` entities from the front of a byte list. -/
def decEntities : Nat → List Nat → Option (List OLEntity × List Nat)
  | 0, l => some ([], l)
  | n + 1, l =>
      match decEntity l with
      | none => none
      | some (e, l1) =>
          match decEntities n l1 with
          | none => none
          | some (es, l2) => some (e :: es, l2)

/-- Deserialize a count-prefixed list of entities. -/
def decEntityList : List Nat → Option (List OLEntity × List Nat)
  | [] => none
  | n :: rest => decEntities n rest

/-- The model of `pickle.dump(ol_book, fhandle, pickle.HIGHEST_PROTOCOL)`:
a lossless byte encoding of the record. -/
def pickleDump (b : OLBook) : List Nat :=
  encOptStr b.title ++ encEntityList b.authors ++ encEntityList b.publishers

/-- The model of `pickle.load(fhandle)`: decodes the bytes written by
`pickleDump`; any other byte list fails (raising, at the call site,
`PyExn.unpicklingError`). -/
def pickleLoad (l : List Nat) : Option OLBook :=
  match decOptStr l with
  | none => none
  | some (t, l1) =>
      match decEntityList l1 with
      | none => none
      | some (as, l2) =>
          match decEntityList l2 with
          | some (ps, []) => some ⟨t, as, ps⟩
          | some (_, _ :: _) => none
          | none => none

/-- The cache directory on disk: file path ↦ file contents. -/
abbrev FS : Type := List (String × List Nat)

/-- The cache file path built at `bulk_import.py:127`:
`'{0}/isbn{1}.dat'.format(cache_dir, isbn)`. -/
def cacheFileName (cache_dir isbn : String) : String :=
  cache_dir ++ "/isbn" ++ isbn ++ ".dat"

/-! ### Data fetching (`search_isbn`, `fetch_book_details`) -/

/-- Embedding of `search_isbn` (`bulk_import.py:96-111`): issue the GET
(which may raise a transport error), `raise_for_status()` (HTTPError on
4xx/5xx), then `list(resp.json().values())[0]` (IndexError when the JSON
object is empty; otherwise the first value, whatever its key). -/
def search_isbn (net : String → Except PyExn Response) (isbn : String) :
    Except PyExn OLBook :=
  match net isbn with
  | .error e => .error e
  | .ok resp =>
      if 400 ≤ resp.status ∧ resp.status < 600 then
        .error (.httpError resp.status)
      else
        match resp.body with
        | [] => .error .indexError
        | (_, v) :: _ => .ok v

/-- Result of `fetch_book_details`: the `(ol_book, error)` tuple on normal
return (`book = none` models the `{}` error dict), the raised exception when
it unwinds, the cache directory afterwards, and how many times the network
was hit (0 or 1). -/
structure FetchResult where
  exn : Option PyExn
  book : Option OLBook
  errmsg : String
  fs : FS
  netCalls : Nat
deriving DecidableEq

/-- The error message formatted at `bulk_import.py:145`. -/
def httpErrorMessage (status : Nat) : String :=
  "ERROR: HTTP error searching OpenLibrary.org: " ++ toString status

/-- Embedding of `fetch_book_details` (`bulk_import.py:113-155`).  Reads the
cache file only when `disable_cache` is false; otherwise calls
`search_isbn`, catching ONLY `requests.exceptions.HTTPError` (returning the
`({}, error)` tuple); any other exception propagates.  After a successful
live fetch the cache file is written unconditionally — the `pickle.dump` at
line 152-153 is not guarded by `disable_cache` (the comment at line 148 says
"write cache file always"). -/
def fetch_book_details (net : String → Except PyExn Response) (fs : FS)
    (isbn cache_dir : String) (disable_cache : Bool) : FetchResult :=
  let cache_file := cacheFileName cache_dir isbn
  match (if disable_cache then none else lookupIdx fs cache_file) with
  | some bytes =>
      match pickleLoad bytes with
      | some ol_book =>
          { exn := none, book := some ol_book, errmsg := "", fs := fs,
            netCalls := 0 }
      | none =>
          { exn := some .unpicklingError, book := none, errmsg := "",
            fs := fs, netCalls := 0 }
  | none =>
      match search_isbn net isbn with
      | .error (.httpError s) =>
          { exn := none, book := none, errmsg := httpErrorMessage s,
            fs := fs, netCalls := 1 }
      | .error e =>
          { exn := some e, book := none, errmsg := "", fs := fs,
            netCalls := 1 }
      | .ok ol_book =>
          { exn := none, book := some ol_book, errmsg := "",
            fs := idxInsert fs cache_file (pickleDump ol_book),
            netCalls := 1 }

/-! ### Store schema and session state -/

/-- Modelled from the spec: the `media_schema.Author` table row is not under
`src/` (only `bulk_import.py` imports it); per the spec an IndexedEntity is
`{naturalKey (URL), storageIdentifier, displayName}`, and the code assigns
`new_author.author`, `new_author.url` and reads the SERIAL `author_id`. -/
structure AuthorRow where
  author_id : Nat
  author : String
  url : String
deriving DecidableEq

/-- Modelled from the spec: the `media_schema.Publisher` table row is not
under `src/`; mirrored from `populate_publisher`'s assignments
(`publisher`, `url`) and the SERIAL `publisher_id`. -/
structure PublisherRow where
  publisher_id : Nat
  publisher : String
  url : String
deriving DecidableEq

/-- Modelled from the spec: the CanonicalBook record ("the reconciled
output: one record per ISBN ... plus resolved references"); only its title
is needed here.  `bulk_import.py` contains no code that creates one. -/
structure BookRow where
  title : Option String
deriving DecidableEq

/-- Observable actions of a run: the `print` log lines for entity
skip/creation, the skip log line for a failed row fetch, and the final
`session.commit()` / `session.rollback()`. -/
inductive Event where
  /-- The `print("Creating author: ...")` at `bulk_import.py:225`. -/
  | createdAuthor (url : String)
  /-- The `print("Skipping Author ...")` at `bulk_import.py:220`. -/
  | skippedAuthor (url : String)
  /-- The `print("\t" + error)` for a failed fetch at `bulk_import.py:341`. -/
  | skippedRow (isbn : String) (msg : String)
  /-- `session.commit()` at `bulk_import.py:358`. -/
  | commit
  /-- `session.rollback()` at `bulk_import.py:361`. -/
  | rollback
deriving DecidableEq

/-- Result of `populate_author` (and of `process_book`, which just wraps
it): the Python return value, the updated in-memory index and session
state, the log events emitted, and the exception if one unwinds. -/
structure PopResult where
  exn : Option PyExn
  retval : Option AuthorRow
  idx : List (String × AuthorRow)
  staged : List AuthorRow
  nextId : Nat
  events : List Event
deriving DecidableEq

/-- Embedding of `populate_author` (`bulk_import.py:203-235`).  The loop
walks `ol_book['authors']`; on an index hit it prints a skip line and
RETURNS the existing dict (abandoning the rest of the list, line 222); on a
miss it prints a creation line, does `session.add`/`session.flush` (which
raises `PyExn.storageError` when `failOn` says so), stores the new row in
`existing` keyed by url, and continues.  Falling off the loop returns
`None`. -/
def populate_author (failOn : String → Bool) : List OLEntity →
    List (String × AuthorRow) → List AuthorRow → Nat → List Event → PopResult
  | [], idx, staged, nextId, events =>
      { exn := none, retval := none, idx := idx, staged := staged,
        nextId := nextId, events := events }
  | a :: rest, idx, staged, nextId, events =>
      match lookupIdx idx a.url with
      | some row =>
          -- `return existing[author['url']]` — early return from the loop
          { exn := none, retval := some row, idx := idx, staged := staged,
            nextId := nextId, events := events ++ [.skippedAuthor a.url] }
      | none =>
          if failOn a.url then
            -- the "Creating author" print happened; flush raised
            { exn := some .storageError, retval := none, idx := idx,
              staged := staged, nextId := nextId,
              events := events ++ [.createdAuthor a.url] }
          else
            let row : AuthorRow := ⟨nextId, a.name, a.url⟩
            populate_author failOn rest (idxInsert idx a.url row)
              (staged ++ [row]) (nextId + 1)
              (events ++ [.createdAuthor a.url])

/-- Embedding of `process_book` (`bulk_import.py:237-264`): only the author
population runs; the publisher call is commented out and steps 3-9 (Edition,
Series, Book, join tables, ...) are comments with no code, so no book row is
ever created. -/
def process_book (failOn : String → Bool) (ol_book : OLBook)
    (idx : List (String × AuthorRow)) (staged : List AuthorRow)
    (nextId : Nat) (events : List Event) : PopResult :=
  populate_author failOn ol_book.authors idx staged nextId events

/-- Embedding of `index_db_data` (`bulk_import.py:266-288`).  The author
index is built normally; the publisher loop's body subscripts the undefined
name `publisher` (`existing_data['publishers'][publisher.url]`, line 286),
so its first iteration raises `NameError` — it only completes when the
publishers table is empty. -/
def index_db_data (dbAuthors : List AuthorRow)
    (dbPublishers : List PublisherRow) :
    Except PyExn (List (String × AuthorRow) × List (String × PublisherRow)) :=
  let authorsIdx :=
    dbAuthors.foldl (fun idx a => idxInsert idx a.url a) []
  match dbPublishers with
  | [] => .ok (authorsIdx, [])
  | _ :: _ => .error .nameError

/-- The state threaded through `main`'s row loop (`bulk_import.py:307-354`):
cache directory contents, the in-memory indexes, the session's staged rows
and SERIAL counter, the event log, the two row counters, and how many
network calls were made. -/
structure LoopState where
  fs : FS
  idxAuthors : List (String × AuthorRow)
  idxPublishers : List (String × PublisherRow)
  staged : List AuthorRow
  stagedBooks : List BookRow
  nextId : Nat
  events : List Event
  successCount : Nat
  totalCount : Nat
  netCalls : Nat
deriving DecidableEq

/-- One iteration of `main`'s row loop (`bulk_import.py:322-354`) on a data
row, whose only field the core reads is `csv_book['isbn']`: bump
`total_count`; skip blank ISBNs; fetch (propagating any uncaught
exception); on a fetch error print the message and continue; otherwise run
`process_book` (propagating `StorageError`) and bump `success_count`. -/
def stepRow (net : String → Except PyExn Response) (failOn : String → Bool)
    (cachedir : String) (disable_cache : Bool) (st : LoopState)
    (isbn : String) : LoopState × Option PyExn :=
  let st := { st with totalCount := st.totalCount + 1 }
  if isbn = "" then (st, none)
  else
    let f := fetch_book_details net st.fs isbn cachedir disable_cache
    let st := { st with fs := f.fs, netCalls := st.netCalls + f.netCalls }
    match f.exn with
    | some e => (st, some e)
    | none =>
        match f.book with
        | none =>
            ({ st with events := st.events ++ [.skippedRow isbn f.errmsg] },
             none)
        | some ol_book =>
            let p := process_book failOn ol_book st.idxAuthors st.staged
              st.nextId st.events
            let st := { st with
              idxAuthors := p.idx, staged := p.staged,
              nextId := p.nextId, events := p.events }
            match p.exn with
            | some e => (st, some e)
            | none => ({ st with successCount := st.successCount + 1 }, none)

/-- The row loop itself: process rows in order, stopping at (and
propagating) the first uncaught exception. -/
def processRows (net : String → Except PyExn Response)
    (failOn : String → Bool) (cachedir : String) (disable_cache : Bool) :
    List String → LoopState → LoopState × Option PyExn
  | [], st => (st, none)
  | isbn :: rest, st =>
      match stepRow net failOn cachedir disable_cache st isbn with
      | (st1, none) => processRows net failOn cachedir disable_cache rest st1
      | (st1, some e) => (st1, some e)

/-- The state at the top of `main`'s row loop: a fresh session (nothing
staged), the author index built by `index_db_data` (present even on its
error path, where the authors loop has already completed), and empty
counters and event log. -/
def initState (dbAuthors : List AuthorRow) (fs0 : FS) (nextId0 : Nat) :
    LoopState :=
  { fs := fs0,
    idxAuthors := dbAuthors.foldl (fun idx a => idxInsert idx a.url a) [],
    idxPublishers := [], staged := [], stagedBooks := [],
    nextId := nextId0, events := [], successCount := 0, totalCount := 0,
    netCalls := 0 }

/-- Embedding of `main` (`bulk_import.py:290-366`) from the point where the
database session exists: build the in-memory index (`index_db_data`, which
may raise before any row is processed), run the row loop (an uncaught
exception aborts it, skipping the commit/rollback block), and otherwise
finish with `session.commit()` when the `-C` flag is present and
`session.rollback()` when it is absent. -/
def run (net : String → Except PyExn Response) (failOn : String → Bool)
    (dbAuthors : List AuthorRow) (dbPublishers : List PublisherRow)
    (fs0 : FS) (nextId0 : Nat) (cachedir : String) (disable_cache : Bool)
    (commitFlag : Bool) (rows : List String) : LoopState × Option PyExn :=
  let st0 : LoopState := initState dbAuthors fs0 nextId0
  match index_db_data dbAuthors dbPublishers with
  | .error e => (st0, some e)
  | .ok (ia, ip) =>
      let st1 := { st0 with idxAuthors := ia, idxPublishers := ip }
      match processRows net failOn cachedir disable_cache rows st1 with
      | (st, some e) => (st, some e)
      | (st, none) =>
          if commitFlag then
            ({ st with events := st.events ++ [.commit] }, none)
          else
            ({ st with events := st.events ++ [.rollback] }, none)

/-- The rows of this run that are durable after it ends: the staged rows
when the transaction was committed, nothing otherwise. -/
def persistedAuthors (st : LoopState) : List AuthorRow :=
  if Event.commit ∈ st.events then st.staged else []

/-- Invariant tying the session's staged author rows to the in-memory
`existing_data['authors']` index: staged natural keys are pairwise distinct,
every staged key is recorded in the index, every pre-existing key (from the
`authors` table snapshot `dbUrls`) is in the index, and no staged key is a
pre-existing key. -/
def StagedInv (dbUrls : List String) (idx : List (String × AuthorRow))
    (staged : List AuthorRow) : Prop :=
  (staged.map AuthorRow.url).Nodup
    ∧ (∀ r ∈ staged, (lookupIdx idx r.url).isSome)
    ∧ (∀ u ∈ dbUrls, (lookupIdx idx u).isSome)
    ∧ (∀ r ∈ staged, r.url ∉ dbUrls)

/-- The commit/rollback events are absent from a trace. -/
def NoFinalEvents (l : List Event) : Prop :=
  Event.commit ∉ l ∧ Event.rollback ∉ l

/-! ### Concrete fixtures used to evaluate the embedding on small inputs -/

/-- A concrete OpenLibrary record with one author. -/
def bookT : OLBook := ⟨some "T", [⟨"A", "u1"⟩], []⟩

/-- A concrete OpenLibrary record listing an author with url `u1` first and
a second author with url `u2`. -/
def bookT2 : OLBook := ⟨some "T2", [⟨"A", "u1"⟩, ⟨"B", "u2"⟩], []⟩

/-- A network oracle that answers every ISBN with a well-formed OpenLibrary
response for `bookT`. -/
def netOk : String → Except PyExn Response :=
  fun i => .ok ⟨200, [("ISBN:" ++ i, bookT)]⟩

/-- A network oracle that fails every request with HTTP 404. -/
def net404 : String → Except PyExn Response := fun _ => .ok ⟨404, []⟩

/-- A network oracle whose every request fails with a transport error. -/
def netTransport : String → Except PyExn Response :=
  fun _ => .error .transportError

/-- A network oracle that answers HTTP 200 with an empty JSON object. -/
def netEmpty : String → Except PyExn Response := fun _ => .ok ⟨200, []⟩

/-- A flush oracle that never fails. -/
def noFail : String → Bool := fun _ => false

/-- A flush oracle that fails exactly on the author url `u1`. -/
def failU1 : String → Bool := fun u => u == "u1"

/-! ### Dictionary lemmas -/

theorem lookupIdx_idxInsert {α : Type} (idx : List (String × α)) (q u : String)
    (v : α) :
    lookupIdx (idxInsert idx q v) u = if q = u then some v else lookupIdx idx u := by
  induction idx with
  | nil =>
      by_cases h : q = u <;> simp [idxInsert, lookupIdx, h]
  | cons hd t ih =>
      obtain ⟨k, w⟩ := hd
      by_cases hkq : k = q
      · subst hkq
        by_cases hku : k = u <;> simp [idxInsert, lookupIdx, hku]
      · by_cases hku : k = u
        · subst hku
          have hqu : q ≠ k := fun h => hkq h.symm
          simp [idxInsert, hkq, lookupIdx, hqu]
        · simp [idxInsert, hkq, lookupIdx, hku, ih]

theorem lookupIdx_idxInsert_self {α : Type} (idx : List (String × α))
    (q : String) (v : α) : lookupIdx (idxInsert idx q v) q = some v := by
  simp [lookupIdx_idxInsert]

/-! ### pickle round-trip -/

theorem decStr_encStr (s : String) (rest : List Nat) :
    decStr (encStr s ++ rest) = some (s, rest) := by
  have h1 : (s.data.map Char.toNat ++ rest).take s.data.length
      = s.data.map Char.toNat := by
    simp
  have h2 : (s.data.map Char.toNat ++ rest).drop s.data.length = rest := by
    simp
  have h3 : s.data.length ≤ (s.data.map Char.toNat ++ rest).length := by simp
  have h4 : (s.data.map Char.toNat).map Char.ofNat = s.data := by
    induction s.data with
    | nil => rfl
    | cons c t ih => simp [ih, Char.ofNat_toNat]
  simp [encStr, decStr, h3, h1, h2, h4]

theorem decOptStr_encOptStr (t : Option String) (rest : List Nat) :
    decOptStr (encOptStr t ++ rest) = some (t, rest) := by
  cases t with
  | none => simp [encOptStr, decOptStr]
  | some s => simp [encOptStr, decOptStr, decStr_encStr]

theorem decEntity_encEntity (e : OLEntity) (rest : List Nat) :
    decEntity (encEntity e ++ rest) = some (e, rest) := by
  simp [encEntity, decEntity, List.append_assoc, decStr_encStr]

theorem decEntities_enc (l : List OLEntity) (rest : List Nat) :
    decEntities l.length (l.foldr (fun e acc => encEntity e ++ acc) [] ++ rest)
      = some (l, rest) := by
  induction l with
  | nil => simp [decEntities]
  | cons a t ih =>
      simp [decEntities, List.append_assoc, decEntity_encEntity, ih]

theorem decEntityList_enc (l : List OLEntity) (rest : List Nat) :
    decEntityList (encEntityList l ++ rest) = some (l, rest) := by
  simp [encEntityList, decEntityList, decEntities_enc]

theorem decEntityList_enc_nil (l : List OLEntity) :
    decEntityList (encEntityList l) = some (l, []) := by
  have h := decEntityList_enc l []
  simpa using h

theorem pickleLoad_pickleDump (b : OLBook) :
    pickleLoad (pickleDump b) = some b := by
  have h : pickleDump b
      = encOptStr b.title
        ++ (encEntityList b.authors ++ encEntityList b.publishers) := by
    simp [pickleDump]
  simp [pickleLoad, h, decOptStr_encOptStr, decEntityList_enc,
    decEntityList_enc_nil]

/-! ### Cache behaviour of `fetch_book_details` -/

theorem fetch_after_write (net2 : String → Except PyExn Response) (fs : FS)
    (isbn cache_dir : String) (r : OLBook) :
    fetch_book_details net2
        (idxInsert fs (cacheFileName cache_dir isbn) (pickleDump r)) isbn
        cache_dir false
      = { exn := none, book := some r, errmsg := "",
          fs := idxInsert fs (cacheFileName cache_dir isbn) (pickleDump r),
          netCalls := 0 } := by
  simp [fetch_book_details, lookupIdx_idxInsert_self, pickleLoad_pickleDump]

theorem fetch_cache_hit (net2 : String → Except PyExn Response) (fs : FS)
    (isbn cache_dir : String) (bytes : List Nat) (r : OLBook)
    (hl : lookupIdx fs (cacheFileName cache_dir isbn) = some bytes)
    (hp : pickleLoad bytes = some r) :
    fetch_book_details net2 fs isbn cache_dir false
      = { exn := none, book := some r, errmsg := "", fs := fs,
          netCalls := 0 } := by
  simp [fetch_book_details, hl, hp]

/-! ### Dedup invariant for staged author rows -/

theorem lookupIdx_isSome_idxInsert {α : Type} (idx : List (String × α))
    (q u : String) (v : α) (h : (lookupIdx idx u).isSome) :
    (lookupIdx (idxInsert idx q v) u).isSome := by
  rw [lookupIdx_idxInsert]
  by_cases hq : q = u <;> simp [hq, h]

theorem populate_author_inv (failOn : String → Bool) (dbUrls : List String) :
    ∀ (authors : List OLEntity) (idx : List (String × AuthorRow))
      (staged : List AuthorRow) (nextId : Nat) (events : List Event),
      StagedInv dbUrls idx staged →
      StagedInv dbUrls
        (populate_author failOn authors idx staged nextId events).idx
        (populate_author failOn authors idx staged nextId events).staged := by
  intro authors
  induction authors with
  | nil => intro idx staged nextId events h; simpa [populate_author] using h
  | cons a rest ih =>
      intro idx staged nextId events h
      obtain ⟨hnd, hstidx, hdbidx, hstdb⟩ := h
      rcases hl : lookupIdx idx a.url with _ | row
      · by_cases hf : failOn a.url
        · simpa [populate_author, hl, hf] using ⟨hnd, hstidx, hdbidx, hstdb⟩
        · have hnotst : a.url ∉ staged.map AuthorRow.url := by
            intro hmem
            obtain ⟨r, hr, hru⟩ := List.mem_map.mp hmem
            have := hstidx r hr
            rw [hru, hl] at this
            simp at this
          have hnotdb : a.url ∉ dbUrls := by
            intro hmem
            have := hdbidx a.url hmem
            rw [hl] at this
            simp at this
          have hinv2 : StagedInv dbUrls
              (idxInsert idx a.url ⟨nextId, a.name, a.url⟩)
              (staged ++ [⟨nextId, a.name, a.url⟩]) := by
            refine ⟨?_, ?_, ?_, ?_⟩
            · simpa [List.nodup_append, hnotst] using hnd
            · intro r hr
              rcases List.mem_append.mp hr with hr | hr
              · exact lookupIdx_isSome_idxInsert _ _ _ _ (hstidx r hr)
              · have : r = ⟨nextId, a.name, a.url⟩ := by simpa using hr
                subst this
                simp [lookupIdx_idxInsert_self]
            · intro u hu
              exact lookupIdx_isSome_idxInsert _ _ _ _ (hdbidx u hu)
            · intro r hr
              rcases List.mem_append.mp hr with hr | hr
              · exact hstdb r hr
              · have : r = ⟨nextId, a.name, a.url⟩ := by simpa using hr
                subst this
                simpa using hnotdb
          have := ih (idxInsert idx a.url ⟨nextId, a.name, a.url⟩)
            (staged ++ [⟨nextId, a.name, a.url⟩]) (nextId + 1)
            (events ++ [Event.createdAuthor a.url]) hinv2
          simpa [populate_author, hl, hf] using this
      · simpa [populate_author, hl] using ⟨hnd, hstidx, hdbidx, hstdb⟩

theorem stepRow_inv (net : String → Except PyExn Response)
    (failOn : String → Bool) (cachedir : String) (dc : Bool)
    (dbUrls : List String) (st : LoopState) (isbn : String)
    (h : StagedInv dbUrls st.idxAuthors st.staged) :
    StagedInv dbUrls (stepRow net failOn cachedir dc st isbn).1.idxAuthors
      (stepRow net failOn cachedir dc st isbn).1.staged := by
  have hp := populate_author_inv failOn dbUrls
  unfold stepRow process_book
  by_cases hb : isbn = ""
  · simpa [hb] using h
  · simp only [hb, if_false]
    rcases (fetch_book_details net st.fs isbn cachedir dc).exn with _ | e
    · rcases (fetch_book_details net st.fs isbn cachedir dc).book with _ | b
      · simpa using h
      · rcases hpe : (populate_author failOn b.authors st.idxAuthors st.staged
            st.nextId st.events).exn with _ | e
        · have := hp b.authors st.idxAuthors st.staged st.nextId st.events h
          simpa [process_book, hpe] using this
        · have := hp b.authors st.idxAuthors st.staged st.nextId st.events h
          simpa [process_book, hpe] using this
    · simpa using h

theorem processRows_inv (net : String → Except PyExn Response)
    (failOn : String → Bool) (cachedir : String) (dc : Bool)
    (dbUrls : List String) :
    ∀ (rows : List String) (st : LoopState),
      StagedInv dbUrls st.idxAuthors st.staged →
      StagedInv dbUrls
        (processRows net failOn cachedir dc rows st).1.idxAuthors
        (processRows net failOn cachedir dc rows st).1.staged := by
  intro rows
  induction rows with
  | nil => intro st h; simpa [processRows] using h
  | cons isbn rest ih =>
      intro st h
      have h1 := stepRow_inv net failOn cachedir dc dbUrls st isbn h
      unfold processRows
      rcases hs : stepRow net failOn cachedir dc st isbn with ⟨st1, oe⟩
      rw [hs] at h1
      cases oe
      · exact ih st1 h1
      · exact h1

theorem buildIdx_isSome (l : List AuthorRow) :
    ∀ (idx0 : List (String × AuthorRow)) (u : String),
      (u ∈ l.map AuthorRow.url ∨ (lookupIdx idx0 u).isSome) →
      (lookupIdx (l.foldl (fun idx a => idxInsert idx a.url a) idx0) u).isSome := by
  induction l with
  | nil =>
      intro idx0 u h
      rcases h with h | h
      · simp at h
      · simpa using h
  | cons a t ih =>
      intro idx0 u h
      simp only [List.foldl_cons]
      apply ih
      rcases h with h | h
      · rcases (by simpa using h : u = a.url ∨ ∃ b ∈ t, b.url = u) with h | ⟨b, hb, hbu⟩
        · subst h
          right
          simp [lookupIdx_idxInsert_self]
        · left
          exact List.mem_map.mpr ⟨b, hb, hbu⟩
      · right
        exact lookupIdx_isSome_idxInsert _ _ _ _ h

theorem run_pub_cons (net : String → Except PyExn Response)
    (failOn : String → Bool) (dbAuthors : List AuthorRow)
    (p : PublisherRow) (ps : List PublisherRow) (fs0 : FS) (nextId0 : Nat)
    (cachedir : String) (dc commitFlag : Bool) (rows : List String) :
    run net failOn dbAuthors (p :: ps) fs0 nextId0 cachedir dc commitFlag rows
      = (initState dbAuthors fs0 nextId0, some PyExn.nameError) := rfl

theorem run_pub_nil (net : String → Except PyExn Response)
    (failOn : String → Bool) (dbAuthors : List AuthorRow) (fs0 : FS)
    (nextId0 : Nat) (cachedir : String) (dc commitFlag : Bool)
    (rows : List String) :
    run net failOn dbAuthors [] fs0 nextId0 cachedir dc commitFlag rows
      = match processRows net failOn cachedir dc rows
            (initState dbAuthors fs0 nextId0) with
        | (st, some e) => (st, some e)
        | (st, none) =>
            if commitFlag then
              ({ st with events := st.events ++ [Event.commit] }, none)
            else
              ({ st with events := st.events ++ [Event.rollback] }, none) := rfl

theorem initState_inv (dbAuthors : List AuthorRow) (fs0 : FS)
    (nextId0 : Nat) :
    StagedInv (dbAuthors.map AuthorRow.url)
      (initState dbAuthors fs0 nextId0).idxAuthors
      (initState dbAuthors fs0 nextId0).staged := by
  have hidx : ∀ u ∈ dbAuthors.map AuthorRow.url,
      (lookupIdx (dbAuthors.foldl (fun idx a => idxInsert idx a.url a) []) u).isSome :=
    fun u hu => buildIdx_isSome dbAuthors [] u (Or.inl hu)
  exact ⟨by simp [initState], by simp [initState],
    by simpa [initState] using hidx, by simp [initState]⟩

theorem run_inv (net : String → Except PyExn Response)
    (failOn : String → Bool) (dbAuthors : List AuthorRow)
    (dbPublishers : List PublisherRow) (fs0 : FS) (nextId0 : Nat)
    (cachedir : String) (dc commitFlag : Bool) (rows : List String) :
    StagedInv (dbAuthors.map AuthorRow.url)
      (run net failOn dbAuthors dbPublishers fs0 nextId0 cachedir dc
        commitFlag rows).1.idxAuthors
      (run net failOn dbAuthors dbPublishers fs0 nextId0 cachedir dc
        commitFlag rows).1.staged := by
  have h0 := initState_inv dbAuthors fs0 nextId0
  rcases dbPublishers with _ | ⟨p, ps⟩
  · rw [run_pub_nil]
    have hrec := processRows_inv net failOn cachedir dc
      (dbAuthors.map AuthorRow.url) rows (initState dbAuthors fs0 nextId0) h0
    rcases hs : processRows net failOn cachedir dc rows
        (initState dbAuthors fs0 nextId0) with ⟨st, oe⟩
    rw [hs] at hrec
    cases oe with
    | none => by_cases hc : commitFlag <;> simpa [hc] using hrec
    | some e => exact hrec
  · rw [run_pub_cons]
    exact h0

/-! ### Commit/rollback events only come from the end of `main` -/

theorem populate_author_noFinal (failOn : String → Bool) :
    ∀ (authors : List OLEntity) (idx : List (String × AuthorRow))
      (staged : List AuthorRow) (nextId : Nat) (events : List Event),
      NoFinalEvents events →
      NoFinalEvents (populate_author failOn authors idx staged nextId events).events := by
  intro authors
  induction authors with
  | nil => intro idx staged nextId events h; simpa [populate_author] using h
  | cons a rest ih =>
      intro idx staged nextId events h
      obtain ⟨h1, h2⟩ := h
      rcases hl : lookupIdx idx a.url with _ | row
      · by_cases hf : failOn a.url
        · simpa [populate_author, hl, hf, NoFinalEvents] using ⟨h1, h2⟩
        · have hrec := ih (idxInsert idx a.url ⟨nextId, a.name, a.url⟩)
            (staged ++ [⟨nextId, a.name, a.url⟩]) (nextId + 1)
            (events ++ [Event.createdAuthor a.url])
            (by simpa [NoFinalEvents] using ⟨h1, h2⟩)
          simpa [populate_author, hl, hf] using hrec
      · simpa [populate_author, hl, NoFinalEvents] using ⟨h1, h2⟩

theorem stepRow_noFinal (net : String → Except PyExn Response)
    (failOn : String → Bool) (cachedir : String) (dc : Bool)
    (st : LoopState) (isbn : String) (h : NoFinalEvents st.events) :
    NoFinalEvents (stepRow net failOn cachedir dc st isbn).1.events := by
  have hp := populate_author_noFinal failOn
  unfold stepRow process_book
  by_cases hb : isbn = ""
  · simpa [hb] using h
  · simp only [hb, if_false]
    rcases (fetch_book_details net st.fs isbn cachedir dc).exn with _ | e
    · rcases (fetch_book_details net st.fs isbn cachedir dc).book with _ | b
      · obtain ⟨h1, h2⟩ := h
        simpa [NoFinalEvents] using ⟨h1, h2⟩
      · rcases hpe : (populate_author failOn b.authors st.idxAuthors st.staged
            st.nextId st.events).exn with _ | e
        · have := hp b.authors st.idxAuthors st.staged st.nextId st.events h
          simpa [process_book, hpe] using this
        · have := hp b.authors st.idxAuthors st.staged st.nextId st.events h
          simpa [process_book, hpe] using this
    · simpa using h

theorem processRows_noFinal (net : String → Except PyExn Response)
    (failOn : String → Bool) (cachedir : String) (dc : Bool) :
    ∀ (rows : List String) (st : LoopState), NoFinalEvents st.events →
      NoFinalEvents (processRows net failOn cachedir dc rows st).1.events := by
  intro rows
  induction rows with
  | nil => intro st h; simpa [processRows] using h
  | cons isbn rest ih =>
      intro st h
      have h1 := stepRow_noFinal net failOn cachedir dc st isbn h
      unfold processRows
      rcases hs : stepRow net failOn cachedir dc st isbn with ⟨st1, oe⟩
      rw [hs] at h1
      cases oe
      · exact ih st1 h1
      · exact h1

/-! ### An uncaught exception stops the row loop -/

theorem processRows_append_stops (net : String → Except PyExn Response)
    (failOn : String → Bool) (cachedir : String) (dc : Bool) :
    ∀ (rows1 rows2 : List String) (st st1 : LoopState) (e : PyExn),
      processRows net failOn cachedir dc rows1 st = (st1, some e) →
      processRows net failOn cachedir dc (rows1 ++ rows2) st = (st1, some e) := by
  intro rows1
  induction rows1 with
  | nil => intro rows2 st st1 e h; simp [processRows] at h
  | cons isbn rest ih =>
      intro rows2 st st1 e h
      rcases hs : stepRow net failOn cachedir dc st isbn with ⟨st2, oe⟩
      rw [List.cons_append]
      cases oe with
      | none =>
          simp only [processRows, hs] at h ⊢
          exact ih rows2 st2 st1 e h
      | some e2 =>
          simp only [processRows, hs] at h ⊢
          exact h

/-! ### Characterizations of the fetch path -/

theorem fetch_miss (net : String → Except PyExn Response) (fs : FS)
    (isbn cachedir : String) (dc : Bool)
    (hmiss : dc = true ∨ lookupIdx fs (cacheFileName cachedir isbn) = none) :
    fetch_book_details net fs isbn cachedir dc
      = match search_isbn net isbn with
        | .error (.httpError s) =>
            { exn := none, book := none, errmsg := httpErrorMessage s,
              fs := fs, netCalls := 1 }
        | .error e =>
            { exn := some e, book := none, errmsg := "", fs := fs,
              netCalls := 1 }
        | .ok b =>
            { exn := none, book := some b, errmsg := "",
              fs := idxInsert fs (cacheFileName cachedir isbn) (pickleDump b),
              netCalls := 1 } := by
  have hnone : (if dc then none else lookupIdx fs (cacheFileName cachedir isbn))
      = (none : Option (List Nat)) := by
    rcases hmiss with h | h
    · simp [h]
    · cases dc <;> simp [h]
  simp only [fetch_book_details, hnone]

theorem search_isbn_http (net : String → Except PyExn Response)
    (isbn : String) (resp : Response) (hnet : net isbn = .ok resp)
    (h4 : 400 ≤ resp.status) (h5 : resp.status < 600) :
    search_isbn net isbn = .error (.httpError resp.status) := by
  simp [search_isbn, hnet, h4, h5]

theorem search_isbn_empty_body (net : String → Except PyExn Response)
    (isbn : String) (resp : Response) (hnet : net isbn = .ok resp)
    (hst : resp.status < 400) (hbody : resp.body = []) :
    search_isbn net isbn = .error PyExn.indexError := by
  have h4 : ¬(400 ≤ resp.status ∧ resp.status < 600) := by omega
  simp [search_isbn, hnet, h4, hbody]

theorem search_isbn_raised (net : String → Except PyExn Response)
    (isbn : String) (e : PyExn) (hnet : net isbn = .error e) :
    search_isbn net isbn = .error e := by
  simp [search_isbn, hnet]

/-! ### No book rows are ever staged -/

theorem stepRow_stagedBooks (net : String → Except PyExn Response)
    (failOn : String → Bool) (cachedir : String) (dc : Bool)
    (st : LoopState) (isbn : String) :
    (stepRow net failOn cachedir dc st isbn).1.stagedBooks = st.stagedBooks := by
  unfold stepRow process_book
  by_cases hb : isbn = ""
  · simp [hb]
  · simp only [hb, if_false]
    rcases (fetch_book_details net st.fs isbn cachedir dc).exn with _ | e
    · rcases (fetch_book_details net st.fs isbn cachedir dc).book with _ | b
      · rfl
      · rcases hpe : (populate_author failOn b.authors st.idxAuthors st.staged
            st.nextId st.events).exn with _ | e <;> simp [hpe]
    · rfl

theorem processRows_stagedBooks (net : String → Except PyExn Response)
    (failOn : String → Bool) (cachedir : String) (dc : Bool) :
    ∀ (rows : List String) (st : LoopState),
      (processRows net failOn cachedir dc rows st).1.stagedBooks
        = st.stagedBooks := by
  intro rows
  induction rows with
  | nil => intro st; simp [processRows]
  | cons isbn rest ih =>
      intro st
      have h1 := stepRow_stagedBooks net failOn cachedir dc st isbn
      rcases hs : stepRow net failOn cachedir dc st isbn with ⟨st1, oe⟩
      rw [hs] at h1
      cases oe with
      | none =>
          simp only [processRows, hs]
          rw [ih st1, h1]
      | some e =>
          simp only [processRows, hs]
          exact h1

/-! ### Claims -/

/-- C1: for every run, each distinct author natural key (URL) appearing
across the processed rows results in at most one creation in the store —
the author rows staged by a run carry pairwise-distinct URLs, every staged
URL is recorded in the in-memory index (so later occurrences resolve
against the index instead of inserting), and no staged URL duplicates an
author already in the database snapshot. -/
theorem claim_C1_author_dedup_unique_creation
    (net : String → Except PyExn Response) (failOn : String → Bool)
    (dbAuthors : List AuthorRow) (dbPublishers : List PublisherRow)
    (fs0 : FS) (nextId0 : Nat) (cachedir : String) (dc commitFlag : Bool)
    (rows : List String) :
    (((run net failOn dbAuthors dbPublishers fs0 nextId0 cachedir dc
        commitFlag rows).1.staged.map AuthorRow.url).Nodup)
    ∧ (∀ r ∈ (run net failOn dbAuthors dbPublishers fs0 nextId0 cachedir dc
        commitFlag rows).1.staged,
        (lookupIdx (run net failOn dbAuthors dbPublishers fs0 nextId0
          cachedir dc commitFlag rows).1.idxAuthors r.url).isSome)
    ∧ (∀ r ∈ (run net failOn dbAuthors dbPublishers fs0 nextId0 cachedir dc
        commitFlag rows).1.staged,
        r.url ∉ dbAuthors.map AuthorRow.url) := by
  obtain ⟨h1, h2, h3, h4⟩ := run_inv net failOn dbAuthors dbPublishers fs0
    nextId0 cachedir dc commitFlag rows
  exact ⟨h1, h2, h4⟩

/-- Witness for C1: a concrete two-row input whose rows resolve to the same
author URL `u1` still stages pairwise-distinct author URLs. -/
theorem claim_C1_witness :
    ((run netOk noFail [] [] [] 1 "cache" false false
      ["1", "2"]).1.staged.map AuthorRow.url).Nodup :=
  (claim_C1_author_dedup_unique_creation netOk noFail [] [] [] 1 "cache"
    false false ["1", "2"]).1

/-- C10: whenever the publishers table holds at least one row,
`index_db_data` raises the `NameError` coming from the undefined name
`publisher` at `bulk_import.py:286`, so the run aborts before any input row
is processed (no row counted, nothing staged, no events); the index build
only completes when the publishers table is empty. -/
theorem claim_C10_publisher_index_name_error
    (net : String → Except PyExn Response) (failOn : String → Bool)
    (dbAuthors : List AuthorRow) (dbPublishers : List PublisherRow)
    (fs0 : FS) (nextId0 : Nat) (cachedir : String) (dc commitFlag : Bool)
    (rows : List String) (hp : dbPublishers ≠ []) :
    (run net failOn dbAuthors dbPublishers fs0 nextId0 cachedir dc
        commitFlag rows).2 = some PyExn.nameError
    ∧ (run net failOn dbAuthors dbPublishers fs0 nextId0 cachedir dc
        commitFlag rows).1.totalCount = 0
    ∧ (run net failOn dbAuthors dbPublishers fs0 nextId0 cachedir dc
        commitFlag rows).1.staged = []
    ∧ (run net failOn dbAuthors dbPublishers fs0 nextId0 cachedir dc
        commitFlag rows).1.events = []
    ∧ index_db_data dbAuthors dbPublishers = .error PyExn.nameError
    ∧ index_db_data dbAuthors []
        = .ok (dbAuthors.foldl (fun idx a => idxInsert idx a.url a) [], []) := by
  rcases dbPublishers with _ | ⟨p, ps⟩
  · exact absurd rfl hp
  · exact ⟨rfl, rfl, rfl, rfl, rfl, rfl⟩

/-- Witness for C10: one publisher row in the table aborts a concrete run
with `NameError` before either of its two input rows is processed. -/
theorem claim_C10_witness :
    (run netOk noFail [] [⟨1, "P", "up"⟩] [] 1 "cache" false true
        ["1", "2"]).2 = some PyExn.nameError
    ∧ (run netOk noFail [] [⟨1, "P", "up"⟩] [] 1 "cache" false true
        ["1", "2"]).1.totalCount = 0 := by
  have h := claim_C10_publisher_index_name_error netOk noFail []
    [⟨1, "P", "up"⟩] [] 1 "cache" false true ["1", "2"] (by simp)
  exact ⟨h.1, h.2.1⟩

/-- C9: cache round-trip — if a `fetch_book_details` call returns record
`r` without raising (in particular, after a successful live fetch wrote the
cache file), then a later fetch of the same ISBN against the resulting
cache directory with bypass inactive returns exactly `r` from the cache:
no network call, no error and no further write, whatever the network
oracle does on the later run. -/
theorem claim_C9_cache_round_trip
    (net net2 : String → Except PyExn Response) (fs : FS)
    (isbn cache_dir : String) (disable_cache : Bool) (r : OLBook)
    (h1 : (fetch_book_details net fs isbn cache_dir disable_cache).exn = none)
    (h2 : (fetch_book_details net fs isbn cache_dir disable_cache).book = some r) :
    fetch_book_details net2
        (fetch_book_details net fs isbn cache_dir disable_cache).fs isbn
        cache_dir false
      = { exn := none, book := some r, errmsg := "",
          fs := (fetch_book_details net fs isbn cache_dir disable_cache).fs,
          netCalls := 0 } := by
  rcases hs : (if disable_cache then none
      else lookupIdx fs (cacheFileName cache_dir isbn)) with _ | bytes
  · rcases hn : search_isbn net isbn with e | b
    · cases e <;> simp [fetch_book_details, hs, hn] at h1 h2
    · have hb : b = r := by
        simp [fetch_book_details, hs, hn] at h2
        exact h2
      subst hb
      simp [fetch_book_details, hs, hn, lookupIdx_idxInsert_self,
        pickleLoad_pickleDump]
  · rcases hp : pickleLoad bytes with _ | b
    · simp [fetch_book_details, hs, hp] at h1
    · have hb : b = r := by
        simp [fetch_book_details, hs, hp] at h2
        exact h2
      subst hb
      have hdc : disable_cache = false := by
        cases disable_cache
        · rfl
        · simp at hs
      subst hdc
      have hl : lookupIdx fs (cacheFileName cache_dir isbn) = some bytes := by
        simpa using hs
      simp [fetch_book_details, hp, hl]

/-- Witness for C9: a concrete live fetch of ISBN `1` followed by a second
fetch of `1` against the written cache returns the same record even though
the network now only reports transport failures. -/
theorem claim_C9_witness :
    fetch_book_details netTransport
        (fetch_book_details netOk [] "1" "cache" false).fs "1" "cache" false
      = { exn := none, book := some bookT, errmsg := "",
          fs := (fetch_book_details netOk [] "1" "cache" false).fs,
          netCalls := 0 } :=
  claim_C9_cache_round_trip netOk netTransport [] "1" "cache" false bookT
    rfl rfl

/-- C2 (code behaviour at the failing input): with the cache disabled
(`-d`), the read side is indeed bypassed, but a successful live fetch STILL
writes the cache file — the `pickle.dump` at `bulk_import.py:152-153` is
unconditional (line 148: "write cache file always"), contradicting the
docstring "Write OL data to a cache file unless cache is disabled". -/
theorem claim_C2_bypass_still_writes_cache :
    (fetch_book_details netOk [] "1" "cache" true).exn = none
    ∧ (fetch_book_details netOk [] "1" "cache" true).book = some bookT
    ∧ lookupIdx (fetch_book_details netOk [] "1" "cache" true).fs
        (cacheFileName "cache" "1") = some (pickleDump bookT) := by
  refine ⟨rfl, rfl, ?_⟩
  have h : (fetch_book_details netOk [] "1" "cache" true).fs
      = idxInsert [] (cacheFileName "cache" "1") (pickleDump bookT) := rfl
  rw [h, lookupIdx_idxInsert_self]

/-- C4 (code behaviour at the failing input): with an index already holding
the author url `u1` and an author list `[u1-author, u2-author]`,
`populate_author` hits the `return` at `bulk_import.py:222` on the first
entry and never reaches the second: nothing is staged, the index is
unchanged, only the `u1` skip is logged, and the new author `u2` is NOT
created — contradicting the docstring "Add the author(s) to the database if
not already there". -/
theorem claim_C4_early_return_skips_new_author :
    (populate_author noFail bookT2.authors [("u1", ⟨7, "A", "u1"⟩)] [] 10
        []).staged = []
    ∧ (populate_author noFail bookT2.authors [("u1", ⟨7, "A", "u1"⟩)] [] 10
        []).retval = some ⟨7, "A", "u1"⟩
    ∧ (populate_author noFail bookT2.authors [("u1", ⟨7, "A", "u1"⟩)] [] 10
        []).events = [Event.skippedAuthor "u1"]
    ∧ (populate_author noFail bookT2.authors [("u1", ⟨7, "A", "u1"⟩)] [] 10
        []).idx = [("u1", ⟨7, "A", "u1"⟩)]
    ∧ bookT2.authors.map OLEntity.url = ["u1", "u2"] := by
  exact ⟨rfl, rfl, rfl, rfl, rfl⟩

/-- C8 counterexample: a run that fully succeeds on one row whose
ExternalRecord carries the title `T` creates no CanonicalBook record at
all — `process_book` populates authors only, so the claimed book-with-title
creation does not happen. -/
theorem claim_C8_counterexample :
    (run netOk noFail [] [] [] 1 "cache" false true ["1"]).1.stagedBooks = []
    ∧ (run netOk noFail [] [] [] 1 "cache" false true ["1"]).1.successCount = 1
    ∧ (run netOk noFail [] [] [] 1 "cache" false true ["1"]).2 = none
    ∧ bookT.title = some "T" := by
  exact ⟨rfl, rfl, rfl, rfl⟩

/-- C8 amended: no run stages any CanonicalBook record — book creation
(steps 3-9 of `process_book`, including any title assignment) is
unimplemented, so the book table is untouched whatever the inputs. -/
theorem claim_C8_amended_no_book_created
    (net : String → Except PyExn Response) (failOn : String → Bool)
    (dbAuthors : List AuthorRow) (dbPublishers : List PublisherRow)
    (fs0 : FS) (nextId0 : Nat) (cachedir : String) (dc commitFlag : Bool)
    (rows : List String) :
    (run net failOn dbAuthors dbPublishers fs0 nextId0 cachedir dc
      commitFlag rows).1.stagedBooks = [] := by
  rcases dbPublishers with _ | ⟨p, ps⟩
  · rw [run_pub_nil]
    have h := processRows_stagedBooks net failOn cachedir dc rows
      (initState dbAuthors fs0 nextId0)
    rcases hs : processRows net failOn cachedir dc rows
        (initState dbAuthors fs0 nextId0) with ⟨st, oe⟩
    rw [hs] at h
    cases oe with
    | none =>
        by_cases hc : commitFlag <;> simp [hc] <;>
          simpa [initState] using h
    | some e => simpa [initState] using h
  · rw [run_pub_cons]
    rfl

/-- C3 counterexample: with a storage failure on row 1 (flush of author
`u1` raises), the run ends with the StorageError propagating and NEITHER
`session.rollback()` nor `session.commit()` in the trace — the claimed
`finish(commit=false)` is never invoked. -/
theorem claim_C3_counterexample :
    (run netOk failU1 [] [] [] 1 "cache" false false ["1"]).2
        = some PyExn.storageError
    ∧ (run netOk failU1 [] [] [] 1 "cache" false false ["1"]).1.events
        = [Event.createdAuthor "u1"]
    ∧ Event.rollback ∉
        (run netOk failU1 [] [] [] 1 "cache" false false ["1"]).1.events
    ∧ Event.commit ∉
        (run netOk failU1 [] [] [] 1 "cache" false false ["1"]).1.events := by
  refine ⟨rfl, rfl, ?_, ?_⟩ <;> decide

/-- C3 amended: an uncaught exception while processing a row (in
particular a StorageError raised during staging) aborts the remaining rows
— appending further rows changes nothing — and propagates past the
commit/rollback block, so neither `session.commit()` nor
`session.rollback()` is ever invoked; zero rows are durably persisted
because the transaction is never committed. -/
theorem claim_C3_amended_storage_error_aborts
    (net : String → Except PyExn Response) (failOn : String → Bool)
    (dbAuthors : List AuthorRow) (dbPublishers : List PublisherRow)
    (fs0 : FS) (nextId0 : Nat) (cachedir : String) (dc commitFlag : Bool)
    (rows1 rows2 : List String) (e : PyExn)
    (h : (run net failOn dbAuthors dbPublishers fs0 nextId0 cachedir dc
      commitFlag rows1).2 = some e) :
    run net failOn dbAuthors dbPublishers fs0 nextId0 cachedir dc commitFlag
        (rows1 ++ rows2)
      = run net failOn dbAuthors dbPublishers fs0 nextId0 cachedir dc
        commitFlag rows1
    ∧ Event.commit ∉ (run net failOn dbAuthors dbPublishers fs0 nextId0
        cachedir dc commitFlag rows1).1.events
    ∧ Event.rollback ∉ (run net failOn dbAuthors dbPublishers fs0 nextId0
        cachedir dc commitFlag rows1).1.events
    ∧ persistedAuthors (run net failOn dbAuthors dbPublishers fs0 nextId0
        cachedir dc commitFlag rows1).1 = [] := by
  rcases dbPublishers with _ | ⟨p, ps⟩
  · rw [run_pub_nil net failOn dbAuthors fs0 nextId0 cachedir dc commitFlag
      (rows1 ++ rows2),
      run_pub_nil net failOn dbAuthors fs0 nextId0 cachedir dc commitFlag
      rows1]
    rw [run_pub_nil net failOn dbAuthors fs0 nextId0 cachedir dc commitFlag
      rows1] at h
    have noFin := processRows_noFinal net failOn cachedir dc rows1
      (initState dbAuthors fs0 nextId0)
      ⟨by simp [initState], by simp [initState]⟩
    rcases hs : processRows net failOn cachedir dc rows1
        (initState dbAuthors fs0 nextId0) with ⟨st, oe⟩
    rw [hs] at h noFin
    cases oe with
    | none => by_cases hc : commitFlag <;> simp [hc] at h
    | some e1 =>
        obtain ⟨nf1, nf2⟩ := noFin
        have happ := processRows_append_stops net failOn cachedir dc rows1
          rows2 (initState dbAuthors fs0 nextId0) st e1 hs
        rw [happ]
        exact ⟨rfl, nf1, nf2, by simp [persistedAuthors, nf1]⟩
  · rw [run_pub_cons net failOn dbAuthors p ps fs0 nextId0 cachedir dc
      commitFlag (rows1 ++ rows2),
      run_pub_cons net failOn dbAuthors p ps fs0 nextId0 cachedir dc
      commitFlag rows1]
    exact ⟨rfl, by simp [initState], by simp [initState],
      by simp [persistedAuthors, initState]⟩

/-- Witness for C3 (amended): a concrete run whose single row raises a
StorageError; appending a second row changes nothing and no commit or
rollback is traced. -/
theorem claim_C3_witness :
    run netOk failU1 [] [] [] 1 "cache" false false (["1"] ++ ["2"])
      = run netOk failU1 [] [] [] 1 "cache" false false ["1"]
    ∧ Event.commit ∉
        (run netOk failU1 [] [] [] 1 "cache" false false ["1"]).1.events
    ∧ Event.rollback ∉
        (run netOk failU1 [] [] [] 1 "cache" false false ["1"]).1.events
    ∧ persistedAuthors
        (run netOk failU1 [] [] [] 1 "cache" false false ["1"]).1 = [] :=
  claim_C3_amended_storage_error_aborts netOk failU1 [] [] [] 1 "cache"
    false false ["1"] ["2"] PyExn.storageError rfl

/-- C5: commit is strictly operator-opt-in — for every run that reaches the
end of the row loop (no uncaught exception), `session.commit()` is traced
iff the `-C` flag is present; with the flag absent the run ends in
`session.rollback()`, commit never happens, and no staged entity is
durably persisted. -/
theorem claim_C5_commit_iff_flag
    (net : String → Except PyExn Response) (failOn : String → Bool)
    (dbAuthors : List AuthorRow) (dbPublishers : List PublisherRow)
    (fs0 : FS) (nextId0 : Nat) (cachedir : String) (dc commitFlag : Bool)
    (rows : List String)
    (h : (run net failOn dbAuthors dbPublishers fs0 nextId0 cachedir dc
      commitFlag rows).2 = none) :
    (Event.commit ∈ (run net failOn dbAuthors dbPublishers fs0 nextId0
        cachedir dc commitFlag rows).1.events ↔ commitFlag = true)
    ∧ (commitFlag = false →
        Event.rollback ∈ (run net failOn dbAuthors dbPublishers fs0 nextId0
          cachedir dc commitFlag rows).1.events
        ∧ Event.commit ∉ (run net failOn dbAuthors dbPublishers fs0 nextId0
          cachedir dc commitFlag rows).1.events
        ∧ persistedAuthors (run net failOn dbAuthors dbPublishers fs0
          nextId0 cachedir dc commitFlag rows).1 = []) := by
  rcases dbPublishers with _ | ⟨p, ps⟩
  · rw [run_pub_nil] at h ⊢
    have noFin := processRows_noFinal net failOn cachedir dc rows
      (initState dbAuthors fs0 nextId0)
      ⟨by simp [initState], by simp [initState]⟩
    rcases hs : processRows net failOn cachedir dc rows
        (initState dbAuthors fs0 nextId0) with ⟨st, oe⟩
    rw [hs] at h noFin
    obtain ⟨nf1, nf2⟩ := noFin
    cases oe with
    | some e1 => simp at h
    | none =>
        cases commitFlag with
        | true =>
            constructor
            · simp
            · intro hfalse; exact absurd hfalse (by simp)
        | false =>
            have hnc : Event.commit ∉ st.events ++ [Event.rollback] := by
              simp [nf1]
            constructor
            · simpa using hnc
            · intro _
              refine ⟨by simp, by simpa using hnc, ?_⟩
              simp [persistedAuthors, nf1]
  · rw [run_pub_cons] at h
    simp at h

/-- Witness for C5: a concrete successful run without the commit flag ends
in a rollback, no commit, and nothing persisted. -/
theorem claim_C5_witness :
    Event.rollback ∈
        (run netOk noFail [] [] [] 1 "cache" false false ["1"]).1.events
    ∧ Event.commit ∉
        (run netOk noFail [] [] [] 1 "cache" false false ["1"]).1.events
    ∧ persistedAuthors
        (run netOk noFail [] [] [] 1 "cache" false false ["1"]).1 = [] :=
  (claim_C5_commit_iff_flag netOk noFail [] [] [] 1 "cache" false false
    ["1"] rfl).2 rfl

/-- C6 counterexample: a transport failure (connection error/timeout) on
row 1 is NOT skipped — the exception propagates: the run aborts with it,
no skip line is logged, and the second row is never reached. -/
theorem claim_C6_counterexample :
    (run netTransport noFail [] [] [] 1 "cache" false true ["1", "2"]).2
        = some PyExn.transportError
    ∧ (run netTransport noFail [] [] [] 1 "cache" false true
        ["1", "2"]).1.events = []
    ∧ (run netTransport noFail [] [] [] 1 "cache" false true
        ["1", "2"]).1.totalCount = 1 := by
  exact ⟨rfl, rfl, rfl⟩

/-- C6 amended: only `requests.exceptions.HTTPError` is recovered — a
lookup answered with a 4xx/5xx status makes the row be skipped with the
logged error message after exactly one network call (no retry, cache
untouched) and the loop continue with the remaining rows; a transport
failure instead propagates out of the row and aborts the loop. -/
theorem claim_C6_amended_http_error_skips_row
    (net : String → Except PyExn Response) (failOn : String → Bool)
    (cachedir : String) (dc : Bool) (st : LoopState) (isbn : String)
    (rest : List String) (resp : Response) (hb : isbn ≠ "")
    (hmiss : dc = true ∨ lookupIdx st.fs (cacheFileName cachedir isbn) = none)
    (hnet : net isbn = .ok resp) (h4 : 400 ≤ resp.status)
    (h5 : resp.status < 600) :
    stepRow net failOn cachedir dc st isbn
      = ({ st with
            totalCount := st.totalCount + 1,
            netCalls := st.netCalls + 1,
            events := st.events
              ++ [Event.skippedRow isbn (httpErrorMessage resp.status)] },
         none)
    ∧ processRows net failOn cachedir dc (isbn :: rest) st
      = processRows net failOn cachedir dc rest
          { st with
            totalCount := st.totalCount + 1,
            netCalls := st.netCalls + 1,
            events := st.events
              ++ [Event.skippedRow isbn (httpErrorMessage resp.status)] }
    ∧ (∀ net2 : String → Except PyExn Response,
        net2 isbn = .error PyExn.transportError →
        stepRow net2 failOn cachedir dc st isbn
          = ({ st with
                totalCount := st.totalCount + 1,
                netCalls := st.netCalls + 1 }, some PyExn.transportError)) := by
  have hsi := search_isbn_http net isbn resp hnet h4 h5
  have hf := fetch_miss net st.fs isbn cachedir dc hmiss
  rw [hsi] at hf
  have h1 : stepRow net failOn cachedir dc st isbn
      = ({ st with
            totalCount := st.totalCount + 1,
            netCalls := st.netCalls + 1,
            events := st.events
              ++ [Event.skippedRow isbn (httpErrorMessage resp.status)] },
         none) := by
    simp [stepRow, if_neg hb, hf]
  refine ⟨h1, ?_, ?_⟩
  · simp only [processRows, h1]
  · intro net2 hnet2
    have hsi2 := search_isbn_raised net2 isbn PyExn.transportError hnet2
    have hf2 := fetch_miss net2 st.fs isbn cachedir dc hmiss
    rw [hsi2] at hf2
    simp [stepRow, if_neg hb, hf2]

/-- Witness for C6 (amended): a concrete 404 response makes `stepRow` skip
the row with the logged message after one network call and report no
exception. -/
theorem claim_C6_witness :
    (stepRow net404 noFail "cache" false (initState [] [] 1) "9").2 = none
    ∧ (stepRow net404 noFail "cache" false (initState [] [] 1) "9").1.events
        = [Event.skippedRow "9" (httpErrorMessage 404)]
    ∧ (stepRow net404 noFail "cache" false (initState [] [] 1) "9").1.netCalls
        = 1 := by
  have h := claim_C6_amended_http_error_skips_row net404 noFail "cache"
    false (initState [] [] 1) "9" [] ⟨404, []⟩ (by decide) (Or.inr rfl) rfl
    (by decide) (by decide)
  rw [h.1]
  exact ⟨rfl, rfl, rfl⟩

/-- C7 counterexample: an empty JSON object from the lookup service is NOT
handled like a remote lookup error — the `IndexError` from
`list(resp.json().values())[0]` propagates: the run aborts at row 1 with
no skip logged and the second row never processed. -/
theorem claim_C7_counterexample :
    (run netEmpty noFail [] [] [] 1 "cache" false true ["1", "2"]).2
        = some PyExn.indexError
    ∧ (run netEmpty noFail [] [] [] 1 "cache" false true
        ["1", "2"]).1.events = []
    ∧ (run netEmpty noFail [] [] [] 1 "cache" false true
        ["1", "2"]).1.totalCount = 1 := by
  exact ⟨rfl, rfl, rfl⟩

/-- C7 amended: a structurally malformed (empty-object) lookup response is
fatal: `search_isbn` raises `IndexError`, `fetch_book_details` does not
catch it (only HTTPError is caught), and the loop aborts at that row
instead of skipping and continuing. -/
theorem claim_C7_amended_empty_response_aborts
    (net : String → Except PyExn Response) (failOn : String → Bool)
    (cachedir : String) (dc : Bool) (st : LoopState) (isbn : String)
    (rest : List String) (resp : Response) (hb : isbn ≠ "")
    (hmiss : dc = true ∨ lookupIdx st.fs (cacheFileName cachedir isbn) = none)
    (hnet : net isbn = .ok resp) (hst : resp.status < 400)
    (hbody : resp.body = []) :
    search_isbn net isbn = .error PyExn.indexError
    ∧ stepRow net failOn cachedir dc st isbn
      = ({ st with
            totalCount := st.totalCount + 1,
            netCalls := st.netCalls + 1 }, some PyExn.indexError)
    ∧ processRows net failOn cachedir dc (isbn :: rest) st
      = ({ st with
            totalCount := st.totalCount + 1,
            netCalls := st.netCalls + 1 }, some PyExn.indexError) := by
  have hsi := search_isbn_empty_body net isbn resp hnet hst hbody
  have hf := fetch_miss net st.fs isbn cachedir dc hmiss
  rw [hsi] at hf
  have h1 : stepRow net failOn cachedir dc st isbn
      = ({ st with
            totalCount := st.totalCount + 1,
            netCalls := st.netCalls + 1 }, some PyExn.indexError) := by
    simp [stepRow, if_neg hb, hf]
  refine ⟨hsi, h1, ?_⟩
  simp only [processRows, h1]

/-- Witness for C7 (amended): a concrete 200-status empty-object response
aborts the loop at that row with `IndexError`. -/
theorem claim_C7_witness :
    (stepRow netEmpty noFail "cache" false (initState [] [] 1) "9").2
        = some PyExn.indexError
    ∧ search_isbn netEmpty "9" = .error PyExn.indexError := by
  have h := claim_C7_amended_empty_response_aborts netEmpty noFail "cache"
    false (initState [] [] 1) "9" [] ⟨200, []⟩ (by decide) (Or.inr rfl) rfl
    (by decide) rfl
  rw [h.2.1]
  exact ⟨rfl, h.1⟩
